import Mathlib

/-!
Verification development for `jobe.py`, a git post-receive hook implementing a
minimal "push to run a job" pipeline.  The Python source is shallowly embedded:

* pure computations (`branch_only_master`, `Config.__init__`, `datetime.strptime`
  for the format `%Y-%m-%dT%H:%M:%S.%f`, `configparser` boolean conversion)
  become Lean functions;
* the external `git` binary is treated as an atomic collaborator: its visible
  effects are recorded in a trace (`Effect`), and repository state is a map
  from branch names to file lists (`CentralRepo`);
* Python exceptions (`IndexError` from `lines[0]`, `ValueError` from
  `strptime`/`getboolean`, `TypeError` from `strptime(None, ...)`,
  `AttributeError` from reading an attribute that was never assigned)
  become an `Except PyErr` result;
* parsing of the flat ini file format is out of scope (a data-shape contract),
  so the embedding is parameterised by an abstract `parse : String → IniFile`
  and ini files are already-parsed association lists.
-/

/-- Python exceptions that the hook can raise. -/
inductive PyErr where
  | indexError
  | typeError (msg : String)
  | valueError (msg : String)
  | attrError (msg : String)
  deriving DecidableEq, Repr

/-- Observable actions of the hook, in order of occurrence.  Constant
decoration (the startup banner) and verbose-only debug lines are omitted;
`gitRm` stands for `git rm -f *` (remove every tracked file). -/
inductive Effect where
  | info (msg : String)
  | warn (msg : String)
  | okMsg (msg : String)
  | clone
  | gitCheckout (branch : String)
  | gitBranch (branch : String)
  | gitRm
  | fileWrite (name : String) (content : String)
  | gitAdd (path : String)
  | gitAddAll
  | gitCommit (msg : String)
  | gitPush (refspec : String)
  | sleep (usec : Int)
  | execCmd (cmd : String)
  | spawn (jobId : String) (detach : Bool)
  deriving DecidableEq, Repr

/-- The outcome of one invocation of the external version-control binary:
captured standard output, captured standard error, and the exit status. -/
structure GitOutcome where
  stdout : String
  stderr : String
  exitStatus : Int
  deriving DecidableEq, Repr

/-- An already-parsed ini file: association list of section names to
key/value association lists (keys stored lowercased, as `configparser`
normalises option names). -/
structure IniFile where
  sections : List (String × List (String × String))
  deriving DecidableEq, Repr

/-- State of the central repository: files on the mainline branch `master`
plus the other (job) branches with their files. -/
structure CentralRepo where
  master : List (String × String)
  branches : List (String × List (String × String))
  deriving DecidableEq, Repr

/-- A parsed `datetime` value, the result of
`datetime.strptime(s, "%Y-%m-%dT%H:%M:%S.%f")`. -/
structure JobeDateTime where
  year : Nat
  month : Nat
  day : Nat
  hour : Nat
  minute : Nat
  second : Nat
  microsecond : Nat
  deriving DecidableEq, Repr

/-- The `sample_config` template string from `jobe.py`, byte for byte
(note the trailing space after `(server timezone). `). -/
def sample_config : String :=
  "[jobe]\n" ++
  "# Command to execute\n" ++
  "# Can also refer to any files in this folder (i.e sh foo.sh)\n" ++
  "command = uname -a\n" ++
  "\n" ++
  "# Base name of your results branch\n" ++
  "name = run_date\n" ++
  "\n" ++
  "# Don\x27t wait for the job to complete\n" ++
  "detach = yes\n" ++
  "\n" ++
  "# Time to execute the command (server timezone). \n" ++
  "# To execute instantly, set this to a date in the past.\n" ++
  "run_at = 2000-01-01T12:00:00.0\n" ++
  "\n" ++
  "# Print all debug information\n" ++
  "verbose = no\n"

/-- Lookup in an association list, mirroring a Python dict/`SectionProxy.get`. -/
def lookupKV (kvs : List (String × String)) (key : String) : Option String :=
  (kvs.find? (fun kv => kv.1 == key)).map (fun kv => kv.2)

/-- Section lookup, mirroring `config_file['jobe']` / `'jobe' in config_file`. -/
def IniFile.getSection (ini : IniFile) (name : String) : Option (List (String × String)) :=
  (ini.sections.find? (fun s => s.1 == name)).map (fun s => s.2)

def IniFile.hasSection (ini : IniFile) (name : String) : Bool :=
  (ini.getSection name).isSome

/-- The `name` option of the `jobe` section, when present. -/
def iniName (ini : IniFile) : Option String :=
  (ini.getSection "jobe").bind (fun sec => lookupKV sec "name")

/-- `needle.isPrefixOf`-based substring test on character lists. -/
def subOf (needle : List Char) : List Char → Bool
  | [] => needle.isEmpty
  | c :: t => needle.isPrefixOf (c :: t) || subOf needle t

/-- Python's `needle in hay` substring containment on strings. -/
def strContains (hay needle : String) : Bool :=
  subOf needle.toList hay.toList

/-- Python's `line.split(' ')` (explicit separator: empty fields are kept). -/
def splitOnChar (sep : Char) : List Char → List (List Char)
  | [] => [[]]
  | c :: t =>
    if c == sep then [] :: splitOnChar sep t
    else
      match splitOnChar sep t with
      | h :: r => (c :: h) :: r
      | [] => [[c]]

def pySplit (l : String) (sep : Char) : List String :=
  (splitOnChar sep l.toList).map (fun cs => String.mk cs)

/-- `branch_only_master` from `jobe.py`:
reads the post-receive lines, splits the FIRST line on spaces, and returns
`len(lines) == 1 and "refs/heads/master" in refs[2]`.
`lines[0]` on an empty input raises `IndexError`; so does `refs[2]` when the
single line has fewer than three space-separated fields (the `and`
short-circuits, so with two or more lines `refs[2]` is never evaluated). -/
def branch_only_master (lines : List String) : Except PyErr Bool :=
  match lines with
  | [] => .error .indexError
  | l0 :: _ =>
    let refs := pySplit l0 ' '
    if lines.length == 1 then
      match refs.get? 2 with
      | some r2 => .ok (strContains r2 "refs/heads/master")
      | none => .error .indexError
    else
      .ok false

/-- `configparser`'s BOOLEAN_STATES conversion (used by `getboolean`):
the lowercased value must be one of the eight recognised strings, anything
else raises `ValueError`. -/
def pyLower (s : String) : String := String.mk (s.toList.map Char.toLower)

def toBoolean (v : String) : Option Bool :=
  let s := pyLower v
  if s == "1" || s == "yes" || s == "true" || s == "on" then some true
  else if s == "0" || s == "no" || s == "false" || s == "off" then some false
  else none

/-- `section.getboolean(key, False)`: missing key returns the fallback
`False`; a present key whose value is not boolean-like raises `ValueError`. -/
def getBoolKV (sec : List (String × String)) (key : String) : Except PyErr Bool :=
  match lookupKV sec key with
  | none => .ok false
  | some v =>
    match toBoolean v with
    | some b => .ok b
    | none => .error (.valueError ("Not a boolean: " ++ v))

/-- Numeric value of a decimal digit character. -/
def digitVal (c : Char) : Nat := c.toNat - 48

/-- `%Y` of `_strptime`: exactly four decimal digits. -/
def parseY : List Char → Option (Nat × List Char)
  | a :: b :: c :: d :: rest =>
    if a.isDigit ∧ b.isDigit ∧ c.isDigit ∧ d.isDigit then
      some (digitVal a * 1000 + digitVal b * 100 + digitVal c * 10 + digitVal d, rest)
    else none
  | _ => none

/-- `%m` of `_strptime`: the regex `1[0-2]|0[1-9]|[1-9]`. -/
def parseMonth : List Char → Option (Nat × List Char)
  | '1' :: c :: rest =>
    if '0' ≤ c ∧ c ≤ '2' then some (10 + digitVal c, rest)
    else some (1, c :: rest)
  | '0' :: c :: rest =>
    if '1' ≤ c ∧ c ≤ '9' then some (digitVal c, rest) else none
  | c :: rest =>
    if '1' ≤ c ∧ c ≤ '9' then some (digitVal c, rest) else none
  | [] => none

/-- `%d` of `_strptime`: the regex `3[01]|[1-2]\d|0[1-9]|[1-9]`. -/
def parseDay : List Char → Option (Nat × List Char)
  | '3' :: c :: rest =>
    if c = '0' ∨ c = '1' then some (30 + digitVal c, rest)
    else some (3, c :: rest)
  | '1' :: c :: rest =>
    if c.isDigit then some (10 + digitVal c, rest) else some (1, c :: rest)
  | '2' :: c :: rest =>
    if c.isDigit then some (20 + digitVal c, rest) else some (2, c :: rest)
  | '0' :: c :: rest =>
    if '1' ≤ c ∧ c ≤ '9' then some (digitVal c, rest) else none
  | c :: rest =>
    if '1' ≤ c ∧ c ≤ '9' then some (digitVal c, rest) else none
  | [] => none

/-- `%H` of `_strptime`: the regex `2[0-3]|[0-1]\d|\d`. -/
def parseHour : List Char → Option (Nat × List Char)
  | '2' :: c :: rest =>
    if '0' ≤ c ∧ c ≤ '3' then some (20 + digitVal c, rest)
    else some (2, c :: rest)
  | '0' :: c :: rest =>
    if c.isDigit then some (digitVal c, rest) else some (0, c :: rest)
  | '1' :: c :: rest =>
    if c.isDigit then some (10 + digitVal c, rest) else some (1, c :: rest)
  | c :: rest =>
    if c.isDigit then some (digitVal c, rest) else none
  | [] => none

/-- `%M`/`%S` of `_strptime`: the regex `[0-5]\d|\d`.  (`%S` additionally
allows the leap-second values `60`/`61`, which the `datetime` constructor
then rejects with `ValueError`; both roads lead to the same observable
failure, so the leap-second alternative is folded into the failure path.) -/
def parseMinSec : List Char → Option (Nat × List Char)
  | a :: b :: rest =>
    if '0' ≤ a ∧ a ≤ '5' ∧ b.isDigit then some (digitVal a * 10 + digitVal b, rest)
    else if a.isDigit then some (digitVal a, b :: rest) else none
  | [a] => if a.isDigit then some (digitVal a, []) else none
  | [] => none

/-- `%f` of `_strptime`: one to six digits, taken greedily, right-padded
with zeros to microseconds. -/
def parseFrac (cs : List Char) : Option (Nat × List Char) :=
  let ds := (cs.takeWhile Char.isDigit).take 6
  if ds.isEmpty then none
  else
    let n := ds.foldl (fun acc c => acc * 10 + digitVal c) 0
    some (n * 10 ^ (6 - ds.length), cs.drop ds.length)

/-- A literal character of the format string. -/
def parseLit (c : Char) : List Char → Option (List Char)
  | x :: rest => if x == c then some rest else none
  | [] => none

def daysInMonth (y m : Nat) : Nat :=
  if m = 2 then (if (y % 4 = 0 ∧ y % 100 ≠ 0) ∨ y % 400 = 0 then 29 else 28)
  else if m = 4 ∨ m = 6 ∨ m = 9 ∨ m = 11 then 30 else 31

/-- `datetime.strptime(s, "%Y-%m-%dT%H:%M:%S.%f")`: the whole string must be
consumed ("unconverted data remains" otherwise), and the `datetime`
constructor validates the day against the month and requires `year ≥ 1`. -/
def strptimeJobe (s : String) : Option JobeDateTime := do
  let cs := s.toList
  let (y, cs) ← parseY cs
  let cs ← parseLit '-' cs
  let (mo, cs) ← parseMonth cs
  let cs ← parseLit '-' cs
  let (d, cs) ← parseDay cs
  let cs ← parseLit 'T' cs
  let (h, cs) ← parseHour cs
  let cs ← parseLit ':' cs
  let (mi, cs) ← parseMinSec cs
  let cs ← parseLit ':' cs
  let (se, cs) ← parseMinSec cs
  let cs ← parseLit '.' cs
  let (f, cs) ← parseFrac cs
  if cs.isEmpty ∧ 1 ≤ y ∧ d ≤ daysInMonth y mo then
    some ⟨y, mo, d, h, mi, se, f⟩
  else none

/-- Days since the Unix epoch of a civil date (Hinnant's `days_from_civil`);
all intermediate dividends are non-negative for the years `strptime` can
produce, so integer-division conventions do not matter. -/
def daysFromCivil (y m d : Nat) : Int :=
  let yy : Int := if m ≤ 2 then (y : Int) - 1 else (y : Int)
  let era := yy / 400
  let yoe := yy - era * 400
  let mp : Int := if m > 2 then (m : Int) - 3 else (m : Int) + 9
  let doy := (153 * mp + 2) / 5 + (d : Int) - 1
  let doe := yoe * 365 + yoe / 4 - yoe / 100 + doy
  era * 146097 + doe - 719468

/-- Microseconds since the Unix epoch; `a - b` in microseconds is exactly
`(a - b).total_seconds()` scaled by `10^6` (the Python code stores seconds
as a float; scaling keeps the embedding exact). -/
def dtToMicro (t : JobeDateTime) : Int :=
  daysFromCivil t.year t.month t.day * 86400000000
    + (t.hour : Int) * 3600000000 + (t.minute : Int) * 60000000
    + (t.second : Int) * 1000000 + (t.microsecond : Int)

/-- The attributes a `Config` object carries after `__init__`.  An invalid
configuration (missing `[jobe]` section) short-circuits with `valid = False`
and assigns none of the other attributes, hence the `Option` fields. -/
structure ConfigData where
  valid : Bool
  command : Option String
  job_id : Option String
  detach : Option Bool
  verbose : Option Bool
  run_at : Option JobeDateTime
  wait : Option Int
  deriving DecidableEq, Repr

def invalidConfig : ConfigData :=
  { valid := false, command := none, job_id := none, detach := none,
    verbose := none, run_at := none, wait := none }

/-- `Config.__init__` from `jobe.py`.  `shortHash` is the string returned by
`repo.short_hash()` (the captured stdout of `git rev-parse --short HEAD`);
`now` stands for `datetime.now()`.  Field order follows the source:
`command`, `job_id`, `detach`, `verbose`, then `run_at` (whose
`strptime` failure is the propagated `ValueError`; a missing `run_at` key
makes `strptime(None, ...)` raise `TypeError`). -/
def Config.init (ini : IniFile) (shortHash : String) (now : JobeDateTime) :
    Except PyErr ConfigData :=
  match ini.getSection "jobe" with
  | none => .ok invalidConfig
  | some sec =>
    let command := lookupKV sec "command"
    let job_id := (lookupKV sec "name").getD "job" ++ "-" ++ shortHash
    match getBoolKV sec "detach" with
    | .error e => .error e
    | .ok detach =>
      match getBoolKV sec "verbose" with
      | .error e => .error e
      | .ok verbose =>
        match lookupKV sec "run_at" with
        | none => .error (.typeError "strptime() argument 1 must be str, not None")
        | some s =>
          match strptimeJobe s with
          | none => .error (.valueError ("time data " ++ s ++ " does not match format"))
          | some dt =>
            .ok { valid := true, command := command, job_id := some job_id,
                  detach := some detach, verbose := some verbose,
                  run_at := some dt,
                  wait := some (dtToMicro dt - dtToMicro now) }

/-- Commit message used by `Repo.reset`. -/
def resetMessage : String := "JOBE ready for submissions."

/-- `Repo.reset` from `jobe.py`, as a transformation of the mainline file
list (the external git operations are recorded as effects):

* `self.checkout("master")` puts the working copy on the mainline tip;
* `open("jobe.ini", "a+")` creates the file when it is absent, and — append
  mode positioning the stream at end-of-file — the subsequent `f.read()`
  returns `""`, so the guard `f.read() != sample_config` is met on every run;
* `len(os.listdir(work_dir))` counts the working-copy entries plus `.git`;
* on the (always-taken) rewrite path: `git rm -f *` removes the tracked
  files, `jobe.ini` is rewritten to `sample_config`, added and committed.

Returns the resulting mainline file list and the effect trace. -/
def Repo.reset (masterFiles : List (String × String)) :
    List (String × String) × List Effect :=
  let entries :=
    if (lookupKV masterFiles "jobe.ini").isSome then masterFiles
    else masterFiles ++ [("jobe.ini", "")]
  let readBack := ""
  if readBack ≠ sample_config ∨ entries.length + 1 > 2 then
    ([("jobe.ini", sample_config)],
     [.gitCheckout "master", .gitRm, .fileWrite "jobe.ini" sample_config,
      .gitAdd "jobe.ini", .gitCommit resetMessage])
  else
    (masterFiles, [.gitCheckout "master"])

/-- `Repo.git` from `jobe.py`: run the external binary with the given
command string, capture its output, log stdout and stderr through
`p.debug` (emitted only in verbose mode) and return the captured stdout.
The exit status of the external command is never inspected: the function is
total and its result does not depend on `outcome.exitStatus`. -/
def Repo.git (cmd : String) (verbose : Bool) (outcome : GitOutcome) :
    List String × String :=
  let _ := cmd
  ((if verbose then [outcome.stdout, outcome.stderr] else []), outcome.stdout)

/-- The git wrappers of `Repo`, each a single `Repo.git` invocation with the
exact command string from the source. -/
def Repo.cloneOp (location workDir : String) (v : Bool) (o : GitOutcome) :=
  Repo.git ("clone " ++ location ++ " " ++ workDir) v o

def Repo.branchOp (branchName : String) (v : Bool) (o : GitOutcome) :=
  Repo.git ("checkout -b " ++ branchName) v o

def Repo.checkoutOp (branchName : String) (v : Bool) (o : GitOutcome) :=
  Repo.git ("checkout " ++ branchName) v o

def Repo.addAllOp (v : Bool) (o : GitOutcome) :=
  Repo.git "add -A" v o

def Repo.addOp (fileName : String) (v : Bool) (o : GitOutcome) :=
  Repo.git ("add " ++ fileName) v o

def Repo.commitOp (message : String) (v : Bool) (o : GitOutcome) :=
  Repo.git ("commit -a -m \x27" ++ message ++ "\x27") v o

def Repo.pushOp (branch : String) (v : Bool) (o : GitOutcome) :=
  Repo.git ("push " ++ branch) v o

def Repo.shortHashOp (v : Bool) (o : GitOutcome) :=
  Repo.git "rev-parse --short HEAD" v o

/-- `Worker.execute` from `jobe.py`: sleep when `config.wait > 0`, run the
job command with stdout/stderr redirected into `stdout.log`/`stderr.log`
in the checkout, then `print` the exit status into `exitcode.log` (a single
line: `str(returncode) + "\n"`).  Reading `config.wait` on an invalid
configuration raises `AttributeError`; `Popen(None, shell=True)` (a `[jobe]`
section with no `command` key) raises `TypeError`.  `cmdOut`/`cmdErr` are the
streams the external command produces and `exitStatus` its exit status. -/
def Worker.execute (cfg : ConfigData) (cmdOut cmdErr : String) (exitStatus : Int) :
    Except PyErr (List Effect) :=
  match cfg.wait with
  | none => .error (.attrError "Config object has no attribute wait")
  | some w =>
    match cfg.command with
    | none => .error (.typeError "arg should be a string or iterable of strings")
    | some c =>
      .ok ((if w > 0 then [.sleep w] else []) ++
           [.execCmd c, .fileWrite "stdout.log" cmdOut, .fileWrite "stderr.log" cmdErr,
            .fileWrite "exitcode.log" (toString exitStatus ++ "\n")])

/-- `Worker.run` from `jobe.py`: clone, check out the job branch, rebuild a
`Config` from that branch's `jobe.ini`, execute, then stage everything,
commit `"Job complete"` and push all branches.  `branchFiles` is the content
of the branch named `jobId` in the central repository. -/
def Worker.run (parse : String → IniFile) (jobId : String)
    (branchFiles : List (String × String)) (shortHash : String) (now : JobeDateTime)
    (cmdOut cmdErr : String) (exitStatus : Int) : Except PyErr (List Effect) :=
  let ini :=
    match lookupKV branchFiles "jobe.ini" with
    | some content => parse content
    | none => ⟨[]⟩
  match Config.init ini shortHash now with
  | .error e => .error e
  | .ok cfg =>
    match Worker.execute cfg cmdOut cmdErr exitStatus with
    | .error e => .error e
    | .ok tr =>
      .ok ([.clone, .gitCheckout jobId] ++ tr ++
           [.gitAddAll, .gitCommit "Job complete", .gitPush "--all"])

/-- `configparser.ConfigParser().read(path)` on the working copy: a missing
`jobe.ini` leaves the parser empty; otherwise the file content goes through
the (out-of-scope, abstract) ini parser. -/
def readIni (parse : String → IniFile) (files : List (String × String)) : IniFile :=
  match lookupKV files "jobe.ini" with
  | some content => parse content
  | none => ⟨[]⟩

/-- The receiver path of `__main__` (invoked with no arguments): consult
`branch_only_master`; on rejection print only the warning; otherwise clone,
build a `Config` from the mainline `jobe.ini` (errors propagate uncaught),
then either bootstrap (invalid config: reset mainline, push `origin master`,
exit — no worker, no branch) or accept (create the branch `job_id` at the
mainline tip, reset mainline, push `--all`, spawn the worker with the
`detach` flag, report the job id).  Returns the new central-repository state
and the effect trace. -/
def receiver (parse : String → IniFile) (lines : List String) (repo : CentralRepo)
    (shortHash : String) (now : JobeDateTime) :
    Except PyErr (CentralRepo × List Effect) :=
  match branch_only_master lines with
  | .error e => .error e
  | .ok false =>
    .ok (repo, [.warn "To create a job, push only to the master branch."])
  | .ok true =>
    let work := repo.master
    match Config.init (readIni parse work) shortHash now with
    | .error e => .error e
    | .ok cfg =>
      if cfg.valid = false then
        let r := Repo.reset work
        .ok ({ repo with master := r.1 },
             [.clone, .info "Invalid config, adding sample config file.",
              .info "Please pull and try again."] ++ r.2 ++ [.gitPush "origin master"])
      else
        let jid := cfg.job_id.getD ""
        let det := cfg.detach.getD false
        let r := Repo.reset work
        .ok ({ master := r.1, branches := repo.branches ++ [(jid, work)] },
             [.clone, .info "Received job", .gitBranch jid] ++ r.2 ++
             [.gitPush "--all", .spawn jid det,
              .okMsg ("Job submitted, id " ++ jid),
              .okMsg "To retrieve your job, do:",
              .okMsg ("git pull --all && git checkout " ++ jid)])

/-- Refspecs pushed during a trace. -/
def pushesOf (tr : List Effect) : List String :=
  tr.filterMap fun ef => match ef with | .gitPush r => some r | _ => none

/-- Commit messages of a trace. -/
def commitsOf (tr : List Effect) : List String :=
  tr.filterMap fun ef => match ef with | .gitCommit m => some m | _ => none

/-- Worker processes spawned during a trace. -/
def spawnsOf (tr : List Effect) : List (String × Bool) :=
  tr.filterMap fun ef => match ef with | .spawn j d => some (j, d) | _ => none

/-- Branches created (`git checkout -b`) during a trace. -/
def branchCreatesOf (tr : List Effect) : List String :=
  tr.filterMap fun ef => match ef with | .gitBranch b => some b | _ => none

deriving instance DecidableEq for Except

/-- A fixed `datetime.now()` value used for concrete evaluations. -/
def demoNow : JobeDateTime := ⟨2026, 1, 1, 0, 0, 0, 0⟩

/-- A valid job descriptor as a user would commit it to `jobe.ini`. -/
def demoDescriptor : String :=
  "[jobe]\ncommand = echo hi\nrun_at = 2000-01-01T12:00:00.0\n"

/-- The parsed form of `demoDescriptor`. -/
def demoIni : IniFile :=
  ⟨[("jobe", [("command", "echo hi"), ("run_at", "2000-01-01T12:00:00.0")])]⟩

/-- A concrete ini parser covering the demo descriptor (anything else parses
to an empty configuration). -/
def demoParse (s : String) : IniFile :=
  if s == demoDescriptor then demoIni else ⟨[]⟩

/-- An ini parser that recognises nothing (any content yields an empty,
section-less configuration). -/
def emptyParse : String → IniFile := fun _ => ⟨[]⟩

/-- The `Config` built from `demoIni` with short hash `abc1234` at `demoNow`. -/
def demoCfg : ConfigData :=
  { valid := true, command := some "echo hi", job_id := some "job-abc1234",
    detach := some false, verbose := some false,
    run_at := some ⟨2000, 1, 1, 12, 0, 0, 0⟩,
    wait := some (dtToMicro ⟨2000, 1, 1, 12, 0, 0, 0⟩ - dtToMicro demoNow) }

/-- The `Config` built from `demoIni` with short hash `zzz9999` at `demoNow`:
identical `name`, different commit hash. -/
def demoCfg2 : ConfigData :=
  { demoCfg with job_id := some "job-zzz9999" }

/-- A descriptor whose `detach` value is not boolean-like although its
`run_at` parses fine. -/
def badBoolIni : IniFile :=
  ⟨[("jobe", [("command", "echo hi"), ("detach", "maybe"),
              ("run_at", "2000-01-01T12:00:00.0")])]⟩

/-- A descriptor whose `run_at` does not parse. -/
def badTimeIni : IniFile :=
  ⟨[("jobe", [("command", "echo hi"), ("run_at", "tomorrow")])]⟩

/-- Ini parser that yields `badTimeIni` for any content. -/
def badTimeParse : String → IniFile := fun _ => badTimeIni

/-- Ini parser that yields `badBoolIni` for any content. -/
def badBoolParse : String → IniFile := fun _ => badBoolIni

/-- The worker trace for the demo job run with exit status `3`. -/
def demoWorkTrace : List Effect :=
  [.clone, .gitCheckout "job-abc1234", .execCmd "echo hi",
   .fileWrite "stdout.log" "hello\n", .fileWrite "stderr.log" "",
   .fileWrite "exitcode.log" "3\n",
   .gitAddAll, .gitCommit "Job complete", .gitPush "--all"]

/-- The reset guard is met on every run: in append mode the initial stream
position is end-of-file, so `f.read()` returns `""` and
`f.read() != sample_config` holds.  Hence `Repo.reset` always rewrites
mainline to exactly the template file. -/
theorem reset_always (files : List (String × String)) :
    Repo.reset files =
      ([("jobe.ini", sample_config)],
       [.gitCheckout "master", .gitRm, .fileWrite "jobe.ini" sample_config,
        .gitAdd "jobe.ini", .gitCommit resetMessage]) := by
  unfold Repo.reset
  rw [if_pos]
  exact Or.inl (by decide)

/-- A missing `[jobe]` section short-circuits `Config.__init__` into the
sentinel invalid configuration. -/
theorem config_init_noSection (ini : IniFile) (h : String) (now : JobeDateTime)
    (hs : ini.getSection "jobe" = none) :
    Config.init ini h now = .ok invalidConfig := by
  unfold Config.init
  rw [hs]

/-- Cancel a common prefix of a string append. -/
theorem str_append_cancel (a b c : String) (h : a ++ b = a ++ c) : b = c := by
  apply String.ext
  have hd := congrArg String.data h
  rw [String.data_append, String.data_append] at hd
  exact List.append_cancel_left hd

/-- On a valid configuration the job id follows the
`name (default "job") + "-" + shortHash` formula. -/
theorem config_job_id (ini : IniFile) (h : String) (now : JobeDateTime) (cfg : ConfigData)
    (hcfg : Config.init ini h now = .ok cfg) (hv : cfg.valid = true) :
    cfg.job_id = some ((iniName ini).getD "job" ++ "-" ++ h) := by
  unfold Config.init at hcfg
  split at hcfg
  case _ hs =>
    injection hcfg with hcfg
    subst hcfg
    simp [invalidConfig] at hv
  case _ sec hs =>
    split at hcfg
    · exact absurd hcfg (by simp)
    · split at hcfg
      · exact absurd hcfg (by simp)
      · split at hcfg
        · exact absurd hcfg (by simp)
        · split at hcfg
          · exact absurd hcfg (by simp)
          · injection hcfg with hcfg
            subst hcfg
            simp [iniName, hs]

/-- C1, as amended.  The single-ref guard accepts exactly the notifications
consisting of one line whose third space-separated field contains
`refs/heads/master` as a substring (Python's `in`), not only the mainline
ref itself; whenever the guard answers `false` (in particular for every
notification of two or more lines) the receiver leaves the central
repository untouched and emits only the warning — no branch is created, no
worker is spawned, nothing is pushed. -/
theorem jobe_C1 (parse : String → IniFile) (lines : List String) (repo : CentralRepo)
    (h : String) (now : JobeDateTime) :
    (branch_only_master lines = .ok true ↔
      ∃ l f0 f1 f2 rest, lines = [l] ∧ pySplit l ' ' = f0 :: f1 :: f2 :: rest ∧
        strContains f2 "refs/heads/master" = true) ∧
    (branch_only_master lines = .ok false →
      receiver parse lines repo h now =
        .ok (repo, [.warn "To create a job, push only to the master branch."])) ∧
    (2 ≤ lines.length → branch_only_master lines = .ok false) := by
  refine ⟨?_, ?_, ?_⟩
  · match lines with
    | [] => simp [branch_only_master]
    | [l0] =>
      constructor
      · intro hl
        simp only [branch_only_master] at hl
        rcases hps : pySplit l0 ' ' with _ | ⟨a, _ | ⟨b, _ | ⟨c, r⟩⟩⟩ <;>
          rw [hps] at hl <;> simp at hl
        exact ⟨l0, a, b, c, r, rfl, hps, hl⟩
      · rintro ⟨l, f0, f1, f2, rest, hll, hsp, hc⟩
        obtain rfl : l0 = l := by injection hll
        simp [branch_only_master, hsp, hc]
    | l0 :: l1 :: tl2 =>
      constructor
      · intro hl
        simp [branch_only_master] at hl
      · rintro ⟨l, f0, f1, f2, rest, hll, hsp, hc⟩
        simp at hll
  · intro hf
    simp only [receiver]
    rw [hf]
  · intro hlen
    match lines, hlen with
    | l0 :: l1 :: tl2, _ =>
      simp [branch_only_master]

/-- C1 counterexample to the claim as stated: a push updating only the ref
`refs/heads/master-archive` — not the mainline branch — passes the guard,
and the receiver proceeds to a full Bootstrapping transition (clone, reset,
commit, push) instead of rejecting it with a warning and no state change. -/
theorem jobe_C1_counterexample :
    branch_only_master ["0000 1111 refs/heads/master-archive\n"] = .ok true ∧
    "refs/heads/master-archive" ≠ "refs/heads/master" ∧
    receiver emptyParse ["0000 1111 refs/heads/master-archive\n"] ⟨[], []⟩ "h" demoNow =
      .ok (⟨[("jobe.ini", sample_config)], []⟩,
           [.clone, .info "Invalid config, adding sample config file.",
            .info "Please pull and try again.",
            .gitCheckout "master", .gitRm, .fileWrite "jobe.ini" sample_config,
            .gitAdd "jobe.ini", .gitCommit resetMessage, .gitPush "origin master"]) := by
  refine ⟨by decide, by decide, ?_⟩
  set_option maxRecDepth 4000 in decide

/-- C1 witness: a two-ref push is rejected with only the warning and the
repository state unchanged. -/
theorem jobe_C1_witness :
    receiver emptyParse ["a b refs/heads/x\n", "c d refs/heads/y\n"]
        ⟨[("jobe.ini", "x")], []⟩ "h" demoNow =
      .ok (⟨[("jobe.ini", "x")], []⟩,
           [.warn "To create a job, push only to the master branch."]) :=
  (jobe_C1 emptyParse ["a b refs/heads/x\n", "c d refs/heads/y\n"]
    ⟨[("jobe.ini", "x")], []⟩ "h" demoNow).2.1 (by decide)

/-- C2.  When the mainline push passes the guard and the committed
descriptor has no recognised `[jobe]` section, the receiver bootstraps:
mainline is reset to the canonical template and committed with the fixed
message `"JOBE ready for submissions."`, only the refspec `origin master`
is pushed, no worker is spawned, no branch is created, and the job-branch
map is unchanged — mainline ends up holding exactly the template. -/
theorem jobe_C2 (parse : String → IniFile) (lines : List String) (repo : CentralRepo)
    (h : String) (now : JobeDateTime)
    (hg : branch_only_master lines = .ok true)
    (hinv : (readIni parse repo.master).hasSection "jobe" = false) :
    ∃ tr, receiver parse lines repo h now =
        .ok ({ master := [("jobe.ini", sample_config)], branches := repo.branches }, tr) ∧
      tr = [.clone, .info "Invalid config, adding sample config file.",
            .info "Please pull and try again.",
            .gitCheckout "master", .gitRm, .fileWrite "jobe.ini" sample_config,
            .gitAdd "jobe.ini", .gitCommit resetMessage, .gitPush "origin master"] ∧
      spawnsOf tr = [] ∧ branchCreatesOf tr = [] ∧
      pushesOf tr = ["origin master"] ∧ commitsOf tr = [resetMessage] := by
  have hs : (readIni parse repo.master).getSection "jobe" = none := by
    unfold IniFile.hasSection at hinv
    exact Option.not_isSome_iff_eq_none.mp (by simp [hinv])
  refine ⟨_, ?_, rfl, ?_, ?_, ?_, ?_⟩
  · simp only [receiver]
    rw [hg, config_init_noSection _ _ _ hs, reset_always]
    simp [invalidConfig]
  · simp [spawnsOf]
  · simp [branchCreatesOf]
  · simp [pushesOf]
  · simp [commitsOf]

/-- C2 witness: a descriptor parsing to an empty (section-less)
configuration triggers the bootstrap transition on a concrete repository. -/
theorem jobe_C2_witness :
    ∃ tr, receiver emptyParse ["o n refs/heads/master\n"]
          ⟨[("jobe.ini", "garbage")], []⟩ "h" demoNow =
        .ok ({ master := [("jobe.ini", sample_config)], branches := [] }, tr) ∧
      tr = [.clone, .info "Invalid config, adding sample config file.",
            .info "Please pull and try again.",
            .gitCheckout "master", .gitRm, .fileWrite "jobe.ini" sample_config,
            .gitAdd "jobe.ini", .gitCommit resetMessage, .gitPush "origin master"] ∧
      spawnsOf tr = [] ∧ branchCreatesOf tr = [] ∧
      pushesOf tr = ["origin master"] ∧ commitsOf tr = [resetMessage] :=
  jobe_C2 emptyParse ["o n refs/heads/master\n"] ⟨[("jobe.ini", "garbage")], []⟩
    "h" demoNow (by decide) (by decide)

/-- C3, as amended.  On a valid descriptor the receiver creates the branch
`job_id` at the current mainline tip and then resets the MAINLINE branch
back to the canonical template (it is mainline, not the job branch, that
`Repo.reset` checks out), pushes all branches and spawns the worker with
the descriptor's detach flag.  The job branch therefore retains the
submitted descriptor as `jobe.ini` — which is what the worker later reads
to learn the command. -/
theorem jobe_C3 (parse : String → IniFile) (lines : List String) (repo : CentralRepo)
    (h : String) (now : JobeDateTime) (cfg : ConfigData) (jid : String) (det : Bool)
    (hg : branch_only_master lines = .ok true)
    (hcfg : Config.init (readIni parse repo.master) h now = .ok cfg)
    (hv : cfg.valid = true)
    (hjid : cfg.job_id = some jid) (hdet : cfg.detach = some det) :
    receiver parse lines repo h now =
      .ok ({ master := [("jobe.ini", sample_config)],
             branches := repo.branches ++ [(jid, repo.master)] },
           [.clone, .info "Received job", .gitBranch jid,
            .gitCheckout "master", .gitRm, .fileWrite "jobe.ini" sample_config,
            .gitAdd "jobe.ini", .gitCommit resetMessage,
            .gitPush "--all", .spawn jid det,
            .okMsg ("Job submitted, id " ++ jid),
            .okMsg "To retrieve your job, do:",
            .okMsg ("git pull --all && git checkout " ++ jid)]) := by
  simp only [receiver]
  rw [hg, hcfg, reset_always]
  simp [hv, hjid, hdet]

/-- C3 counterexample to the claim as stated: after accepting a valid
descriptor, the job branch holds the submitted descriptor itself — not the
canonical template — so the job descriptor does remain a tracked file on
its own result branch (the reset hits mainline instead). -/
theorem jobe_C3_counterexample :
    receiver demoParse ["a b refs/heads/master\n"]
        ⟨[("jobe.ini", demoDescriptor)], []⟩ "abc1234" demoNow =
      .ok (⟨[("jobe.ini", sample_config)],
            [("job-abc1234", [("jobe.ini", demoDescriptor)])]⟩,
           [.clone, .info "Received job", .gitBranch "job-abc1234",
            .gitCheckout "master", .gitRm, .fileWrite "jobe.ini" sample_config,
            .gitAdd "jobe.ini", .gitCommit resetMessage,
            .gitPush "--all", .spawn "job-abc1234" false,
            .okMsg "Job submitted, id job-abc1234",
            .okMsg "To retrieve your job, do:",
            .okMsg "git pull --all && git checkout job-abc1234"]) ∧
    demoDescriptor ≠ sample_config := by
  refine ⟨?_, by decide⟩
  set_option maxRecDepth 4000 in decide

/-- C3 witness: the amended transition on the concrete demo descriptor. -/
theorem jobe_C3_witness :
    receiver demoParse ["o n refs/heads/master\n"]
        ⟨[("jobe.ini", demoDescriptor)], []⟩ "abc1234" demoNow =
      .ok ({ master := [("jobe.ini", sample_config)],
             branches := [("job-abc1234", [("jobe.ini", demoDescriptor)])] },
           [.clone, .info "Received job", .gitBranch "job-abc1234",
            .gitCheckout "master", .gitRm, .fileWrite "jobe.ini" sample_config,
            .gitAdd "jobe.ini", .gitCommit resetMessage,
            .gitPush "--all", .spawn "job-abc1234" false,
            .okMsg ("Job submitted, id " ++ "job-abc1234"),
            .okMsg "To retrieve your job, do:",
            .okMsg ("git pull --all && git checkout " ++ "job-abc1234")]) :=
  jobe_C3 demoParse ["o n refs/heads/master\n"] ⟨[("jobe.ini", demoDescriptor)], []⟩
    "abc1234" demoNow demoCfg "job-abc1234" false
    (by decide) (by set_option maxRecDepth 4000 in decide) (by decide) (by decide) (by decide)

/-- C4.  For every valid configuration the job id equals the descriptor's
`name` option (defaulting to `"job"`) concatenated with `"-"` and the short
revision hash string; it is deterministic in (`name`, hash), and two
configurations with identical `name` but different hashes get distinct
job ids. -/
theorem jobe_C4 (ini : IniFile) (h : String) (now : JobeDateTime) (cfg : ConfigData)
    (hcfg : Config.init ini h now = .ok cfg) (hv : cfg.valid = true) :
    cfg.job_id = some ((iniName ini).getD "job" ++ "-" ++ h) ∧
    (∀ ini2 h2 now2 cfg2, Config.init ini2 h2 now2 = .ok cfg2 → cfg2.valid = true →
      iniName ini2 = iniName ini →
      ((h2 = h → cfg2.job_id = cfg.job_id) ∧ (h2 ≠ h → cfg2.job_id ≠ cfg.job_id))) := by
  have h1 := config_job_id ini h now cfg hcfg hv
  refine ⟨h1, ?_⟩
  intro ini2 h2 now2 cfg2 hcfg2 hv2 hname
  have h2eq := config_job_id ini2 h2 now2 cfg2 hcfg2 hv2
  rw [hname] at h2eq
  constructor
  · intro hh; rw [h1, h2eq, hh]
  · intro hh hcontra
    rw [h1, h2eq] at hcontra
    injection hcontra with hcontra
    exact hh (str_append_cancel _ _ _ hcontra)

/-- C4 witness: the demo descriptor (no `name` option, hash `abc1234`)
yields `job-abc1234`, and the same descriptor at hash `zzz9999` yields a
different job id. -/
theorem jobe_C4_witness :
    demoCfg.job_id = some ((iniName demoIni).getD "job" ++ "-" ++ "abc1234") ∧
    demoCfg2.job_id ≠ demoCfg.job_id := by
  have h4 := jobe_C4 demoIni "abc1234" demoNow demoCfg (by decide) (by decide)
  exact ⟨h4.1,
    (h4.2 demoIni "zzz9999" demoNow demoCfg2 (by decide) (by decide) rfl).2 (by decide)⟩

/-- C5.  Whenever `Config.__init__` returns normally, the `valid` flag is
`false` exactly when the `[jobe]` section is absent, and an invalid
configuration populates none of the other fields (`command`, `job_id`,
`detach`, `run_at`, `wait`). -/
theorem jobe_C5 (ini : IniFile) (h : String) (now : JobeDateTime) (cfg : ConfigData)
    (hcfg : Config.init ini h now = .ok cfg) :
    (cfg.valid = false ↔ ini.hasSection "jobe" = false) ∧
    (cfg.valid = false →
      cfg.command = none ∧ cfg.job_id = none ∧ cfg.detach = none ∧
      cfg.run_at = none ∧ cfg.wait = none) := by
  unfold Config.init at hcfg
  split at hcfg
  case _ hs =>
    injection hcfg with hcfg
    subst hcfg
    simp [IniFile.hasSection, hs, invalidConfig]
  case _ sec hs =>
    split at hcfg
    · exact absurd hcfg (by simp)
    · split at hcfg
      · exact absurd hcfg (by simp)
      · split at hcfg
        · exact absurd hcfg (by simp)
        · split at hcfg
          · exact absurd hcfg (by simp)
          · injection hcfg with hcfg
            subst hcfg
            simp [IniFile.hasSection, hs]

/-- C5 witness: the empty (section-less) configuration is the sentinel
invalid one. -/
theorem jobe_C5_witness :
    (invalidConfig.valid = false ↔ IniFile.hasSection ⟨[]⟩ "jobe" = false) ∧
    (invalidConfig.valid = false →
      invalidConfig.command = none ∧ invalidConfig.job_id = none ∧
      invalidConfig.detach = none ∧ invalidConfig.run_at = none ∧
      invalidConfig.wait = none) :=
  jobe_C5 ⟨[]⟩ "h" demoNow invalidConfig (by decide)

/-- C6.  A non-zero exit status of the job command is not an error: for any
successful worker run, the exit status is written as the single line
`str(status) + "\n"` into `exitcode.log`, the trace then proceeds to stage
all changes, commit `"Job complete"` and push all branches, and replacing
the exit status by any other value changes nothing but the recorded
`exitcode.log` content. -/
theorem jobe_C6 (parse : String → IniFile) (jobId : String)
    (files : List (String × String)) (h : String) (now : JobeDateTime)
    (out err : String) (e : Int) (tr : List Effect)
    (hrun : Worker.run parse jobId files h now out err e = .ok tr) :
    ∃ pre, tr = pre ++ [.fileWrite "exitcode.log" (toString e ++ "\n"),
                       .gitAddAll, .gitCommit "Job complete", .gitPush "--all"] ∧
      ∀ e2 : Int, Worker.run parse jobId files h now out err e2 =
        .ok (pre ++ [.fileWrite "exitcode.log" (toString e2 ++ "\n"),
                     .gitAddAll, .gitCommit "Job complete", .gitPush "--all"]) := by
  simp only [Worker.run] at hrun ⊢
  rcases hinit : Config.init (match lookupKV files "jobe.ini" with
    | some content => parse content
    | none => ⟨[]⟩) h now with e' | cfg <;> rw [hinit] at hrun
  · exact absurd hrun (by simp)
  · simp only [Worker.execute] at hrun ⊢
    rcases hw : cfg.wait with _ | w <;> rw [hw] at hrun
    · exact absurd hrun (by simp)
    · rcases hc : cfg.command with _ | c <;> rw [hc] at hrun
      · exact absurd hrun (by simp)
      · injection hrun with hrun
        refine ⟨[.clone, .gitCheckout jobId] ++ (if w > 0 then [.sleep w] else []) ++
                [.execCmd c, .fileWrite "stdout.log" out, .fileWrite "stderr.log" err],
                ?_, ?_⟩
        · rw [← hrun]; simp
        · intro e2
          simp

/-- C6 witness: the demo job run with exit status `3` records
`exitcode.log` content `3` (the line `"3\n"`) and still commits and
pushes. -/
theorem jobe_C6_witness :
    (∃ pre, demoWorkTrace = pre ++
        [.fileWrite "exitcode.log" (toString (3 : Int) ++ "\n"),
         .gitAddAll, .gitCommit "Job complete", .gitPush "--all"] ∧
      ∀ e2 : Int, Worker.run demoParse "job-abc1234" [("jobe.ini", demoDescriptor)]
          "abc1234" demoNow "hello\n" "" e2 =
        .ok (pre ++ [.fileWrite "exitcode.log" (toString e2 ++ "\n"),
                     .gitAddAll, .gitCommit "Job complete", .gitPush "--all"])) ∧
    toString (3 : Int) ++ "\n" = "3\n" :=
  ⟨jobe_C6 demoParse "job-abc1234" [("jobe.ini", demoDescriptor)] "abc1234" demoNow
     "hello\n" "" 3 demoWorkTrace (by set_option maxRecDepth 4000 in decide),
   by decide⟩

/-- C7.  `Repo.git` never inspects the exit status of the external
version-control command: the result is identical for every exit status
(total, no exception), the captured standard output is returned, and the
captured output is logged only when verbose mode is active.  Every
repository operation (`cloneOp`, `checkoutOp`, `branchOp`, `addOp`,
`addAllOp`, `commitOp`, `pushOp`, `shortHashOp`) is definitionally a single
`Repo.git` invocation, so the statement quantifies over all command
strings. -/
theorem jobe_C7 (cmd : String) (verbose : Bool) (o : GitOutcome) (e : Int) :
    Repo.git cmd verbose { stdout := o.stdout, stderr := o.stderr, exitStatus := e } =
      Repo.git cmd verbose o ∧
    (Repo.git cmd verbose o).2 = o.stdout ∧
    (Repo.git cmd verbose o).1 = (if verbose then [o.stdout, o.stderr] else []) :=
  ⟨rfl, rfl, rfl⟩

/-- C8, as amended.  With the `[jobe]` section present, a `run_at` value
that `strptime` rejects makes the receiver terminate with a propagated
error — no bootstrap/sample-reset fallback.  It is, however, not the only
hard failure in config parsing: a `detach` value that is not boolean-like
likewise terminates the receiver with a propagated `ValueError`, even when
`run_at` parses fine. -/
theorem jobe_C8 (parse : String → IniFile) (lines : List String) (repo : CentralRepo)
    (h : String) (now : JobeDateTime) (sec : List (String × String))
    (hg : branch_only_master lines = .ok true)
    (hsec : (readIni parse repo.master).getSection "jobe" = some sec) :
    (∀ s, lookupKV sec "run_at" = some s → strptimeJobe s = none →
      ∃ e, receiver parse lines repo h now = .error e) ∧
    (∀ v, lookupKV sec "detach" = some v → toBoolean v = none →
      receiver parse lines repo h now = .error (.valueError ("Not a boolean: " ++ v))) := by
  constructor
  · intro s hs hbad
    simp only [receiver]
    rw [hg]
    simp only [Config.init, hsec]
    rcases hd : getBoolKV sec "detach" with ed | bd
    · exact ⟨ed, rfl⟩
    · rcases hv : getBoolKV sec "verbose" with ev | bv
      · exact ⟨ev, rfl⟩
      · simp only [hs, hbad]
        exact ⟨_, rfl⟩
  · intro v hv hbad
    simp only [receiver]
    rw [hg]
    simp only [Config.init, hsec, getBoolKV, hv, hbad]

/-- C8 counterexample to "the only hard failure": a descriptor whose
`run_at` parses (`2000-01-01T12:00:00.0`) but whose `detach` is `maybe`
still makes `Config.__init__` raise a propagated `ValueError`. -/
theorem jobe_C8_counterexample :
    strptimeJobe "2000-01-01T12:00:00.0" = some ⟨2000, 1, 1, 12, 0, 0, 0⟩ ∧
    Config.init badBoolIni "h" demoNow = .error (.valueError "Not a boolean: maybe") := by
  constructor
  · decide
  · decide

/-- C8 witness: an unparsable `run_at` (`tomorrow`) terminates the receiver
with a propagated error, and a non-boolean `detach` does too. -/
theorem jobe_C8_witness :
    (∃ e, receiver badTimeParse ["o n refs/heads/master\n"]
        ⟨[("jobe.ini", "raw")], []⟩ "h" demoNow = .error e) ∧
    receiver badBoolParse ["o n refs/heads/master\n"]
        ⟨[("jobe.ini", "raw")], []⟩ "h" demoNow =
      .error (.valueError ("Not a boolean: " ++ "maybe")) :=
  ⟨(jobe_C8 badTimeParse ["o n refs/heads/master\n"] ⟨[("jobe.ini", "raw")], []⟩
      "h" demoNow [("command", "echo hi"), ("run_at", "tomorrow")]
      (by decide) (by decide)).1 "tomorrow" (by decide) (by decide),
   (jobe_C8 badBoolParse ["o n refs/heads/master\n"] ⟨[("jobe.ini", "raw")], []⟩
      "h" demoNow [("command", "echo hi"), ("detach", "maybe"),
                   ("run_at", "2000-01-01T12:00:00.0")]
      (by decide) (by decide)).2 "maybe" (by decide) (by decide)⟩

/-- C9.  The bootstrap reset is idempotent: one reset leaves mainline
holding exactly the canonical template, and resetting the result again
yields byte-identical content. -/
theorem jobe_C9 (files : List (String × String)) :
    (Repo.reset (Repo.reset files).1).1 = (Repo.reset files).1 ∧
    (Repo.reset files).1 = [("jobe.ini", sample_config)] := by
  rw [reset_always, reset_always]
  exact ⟨rfl, rfl⟩

/-- C10.  On an empty push notification the guard raises `IndexError`
(`lines[0]` on an empty list), the receiver therefore terminates with an
uncaught error instead of printing the warning, and the guard returns a
boolean only for notifications with at least one line. -/
theorem jobe_C10 :
    branch_only_master ([] : List String) = .error .indexError ∧
    (∀ (parse : String → IniFile) (repo : CentralRepo) (h : String) (now : JobeDateTime),
      receiver parse [] repo h now = .error .indexError) ∧
    (∀ (lines : List String) (b : Bool), branch_only_master lines = .ok b → lines ≠ []) := by
  refine ⟨rfl, fun parse repo h now => rfl, ?_⟩
  intro lines b hb hnil
  subst hnil
  simp [branch_only_master] at hb

/-- C10 witness: the receiver on empty input errors out, and any input the
guard answers on is non-empty. -/
theorem jobe_C10_witness :
    receiver emptyParse [] ⟨[], []⟩ "h" demoNow = .error .indexError ∧
    (["z y x"] : List String) ≠ [] :=
  ⟨jobe_C10.2.1 emptyParse ⟨[], []⟩ "h" demoNow,
   jobe_C10.2.2 ["z y x"] false (by decide)⟩
